import Mathlib

/-!
Verification development for the Mass Legal Research Assistant backend
(asynchronous multi-source research job orchestrator).

The Python sources are embedded shallowly:
  * dictionaries with a fixed key set become structures whose optional keys
    are `Option`-valued fields (an absent key is `none`);
  * external collaborators (the vector store, the web-search API and the
    language model) become explicit environment functions returning
    `Except String _` — `.error e` models the collaborator raising an
    exception whose message is `e`;
  * every embedded function is total: a Python `try/except` becomes a
    `match` on the `Except` outcome of the collaborator.
-/

set_option maxHeartbeats 1000000

/-- One citation record as it travels through the system.  Python passes
plain dicts; an absent key is `none`.  Case-law records populate
`case_name`/`citation`/`year`/`source`, web records populate
`title`/`url`/`published_date`, and `format_sources` adds the `type` tag. -/
structure SourceRec where
  type : Option String := none
  case_name : Option String := none
  citation : Option String := none
  year : Option String := none
  source : Option String := none
  title : Option String := none
  url : Option String := none
  published_date : Option String := none
deriving DecidableEq

/-- One formatted web-search result (`websearch_agent.py`, `formatted_results`).
The floating-point relevance `score` is carried by the Python dict but never
read downstream, so it is omitted from the embedding. -/
structure WebResult where
  title : String := ""
  url : String := ""
  content : String := ""
  published_date : String := ""
deriving DecidableEq

/-- The normalized output dict of a provider.  The RAG agent sets `context`, the
web agent sets `results`; the orchestrator-level fallbacks set `error`
(and, in `server.py`, also `content`).  `response` and `sources` are present
in every variant. -/
structure SourceResult where
  context : Option String := none
  results : Option (List WebResult) := none
  response : String
  sources : List SourceRec := []
  error : Option String := none
  content : Option String := none
deriving DecidableEq

/-- Embeds `utils/helper.py`, body of the `for` loop of `format_sources`: the
normalization applied to one raw source record, `none` when the record is
dropped (neither a `case_name` nor a `url` key). -/
def formatOneSource (s : SourceRec) : Option SourceRec :=
  if s.case_name.isSome then
    some { type := some "case_law",
           case_name := some (s.case_name.getD "Unknown case"),
           citation := some (s.citation.getD ""),
           year := some (s.year.getD ""),
           url := some "",
           source := some (s.source.getD "Massachusetts Reports") }
  else if s.url.isSome then
    some { type := some "web",
           title := some (s.title.getD "Untitled"),
           url := some (s.url.getD ""),
           published_date := some (s.published_date.getD ""),
           source := some "Web Search" }
  else
    none

/-- Embeds `utils/helper.py`, `format_sources`. -/
def format_sources (sources : List SourceRec) : List SourceRec :=
  sources.filterMap formatOneSource

/-- Embeds the result dict of `validate_research_query` in `utils/helper.py`. -/
structure ValidationResult where
  valid : Bool
  enhancements : List String
  warnings : List String
deriving DecidableEq

/-- The fixed list of legal terms scanned by `validate_research_query`. -/
def legalTerms : List String :=
  ["law", "case", "statute", "regulation", "court", "decision",
   "plaintiff", "defendant", "appeal", "tort", "contract",
   "property", "liability", "rights", "judge", "jury", "verdict"]

/-- Contiguous-sublist test on character lists, used to embed the Python
`needle in hay` substring operator. -/
def charsInfix (needle : List Char) : List Char → Bool
  | [] => needle.isEmpty
  | c :: t => needle.isPrefixOf (c :: t) || charsInfix needle t

/-- Python `term in query.lower()` substring test. -/
def strContains (hay needle : String) : Bool :=
  charsInfix needle.data hay.data

/-- Embeds `utils/helper.py`, `validate_research_query`. -/
def validate_research_query (query : String) : ValidationResult :=
  let valid := true
  let warnings : List String := []
  let (valid, warnings) :=
    if query.length < 10 then (false, warnings ++ ["Query is too short"])
    else (valid, warnings)
  let enhancements : List String := []
  let has_legal_term := legalTerms.any (fun term => strContains query.toLower term)
  let enhancements :=
    if !has_legal_term then
      enhancements ++ ["Consider adding specific legal terminology to focus your search"]
    else enhancements
  let enhancements :=
    if !(strContains query.toLower "massachusetts") && !(strContains query.toLower "mass") then
      enhancements ++ ["Consider explicitly mentioning Massachusetts to focus on relevant jurisdiction"]
    else enhancements
  { valid := valid, enhancements := enhancements, warnings := warnings }

/-! ## Case-law retrieval adapter (`agents/legal_rag_agent.py`) -/

/-- The inner dict `filter_dict["year"]` of `LegalRagAgent.query`: the year
bounds are stringified (`str(year_start)`), so the values are strings. -/
structure YearFilterBounds where
  gte : Option String := none
  lte : Option String := none
deriving DecidableEq

/-- Embeds `legal_rag_agent.py` lines 61–68 plus the `filter_dict if filter_dict
else None` argument at the `index.query` call: the metadata filter built
from the optional year range; `none` when neither bound is given. -/
def buildYearFilter (year_start year_end : Option Int) : Option YearFilterBounds :=
  let fd : Option YearFilterBounds :=
    match year_start with
    | some s => some { gte := some (toString s) }
    | none => none
  let fd : Option YearFilterBounds :=
    match year_end, fd with
    | some e, some b => some { b with lte := some (toString e) }
    | some e, none => some { lte := some (toString e) }
    | none, fd => fd
  fd

/-- Lexicographic order on character lists (by code point), used for the
string comparison of the stringified year bounds. -/
def charsLe : List Char → List Char → Bool
  | [], _ => true
  | _ :: _, [] => false
  | a :: as, b :: bs =>
    if a.toNat < b.toNat then true
    else if b.toNat < a.toNat then false
    else charsLe as bs

/-- Lexicographic string order (by code point). -/
def strLeB (a b : String) : Bool :=
  charsLe a.data b.data

/-- Modelled from the spec: the vector-search collaborator is external
(`vectorSearch(vector, filter, topK)` in §6); per §4.1/§8 it honors the
range filter, so the `year` metadata of a stored record satisfies the filter
iff it lies between the stringified bounds (string comparison, matching the
stringified values the adapter sends). -/
def matchesYearFilter (f : Option YearFilterBounds) (year : String) : Bool :=
  match f with
  | none => true
  | some b =>
    (match b.gte with
     | none => true
     | some lo => strLeB lo year) &&
    (match b.lte with
     | none => true
     | some hi => strLeB year hi)

/-- Metadata of one vector-store match (`match.metadata`); absent keys are
`none` and are replaced by the literal defaults of `LegalRagAgent.query`.
The floating-point `score` is only logged and copied into the prompt-side
context, never into the returned sources, and is omitted. -/
structure MatchMeta where
  text : Option String := none
  source : Option String := none
  year : Option String := none
  case_name : Option String := none
  citation : Option String := none
deriving DecidableEq

/-- Environment of the case-law adapter: the outcome of embedding the query
and running the vector search (one `Except`, since every exception in the
`try` body lands in the same handler), and the generation call. -/
structure RagEnv where
  search : Option YearFilterBounds → Except String (List MatchMeta)
  llm : String → String → Except String String

/-- The fixed system message of the generation prompt of the case-law adapter. -/
def legalRagSystemPrompt : String :=
  String.intercalate "\n"
    ["You are a legal research assistant specializing in Massachusetts case law.",
     "Use the following information from legal cases to answer the query.",
     "Only use the information provided in the context.",
     "If the information is not in the context, say so clearly.",
     "Be specific about case names, citations, and legal principles.",
     "Respond in a formal legal writing style.",
     "Cite cases properly using standard legal citation format.",
     "Organize your analysis by legal principles and precedents."]

/-- One entry of `formatted_contexts` in `LegalRagAgent.query`. -/
def ragContextEntry (m : MatchMeta) : String :=
  "[Case: " ++ m.case_name.getD "Unknown case" ++
  ", Year: " ++ m.year.getD "Unknown year" ++
  ", Citation: " ++ m.citation.getD "" ++ "]\n\n" ++ m.text.getD ""

/-- The rendered human message of the prompt of the case-law adapter. -/
def ragHumanPrompt (context query : String) : String :=
  "Legal Context Information:\n" ++ context ++ "\n\nLegal Query: " ++ query

/-- Embeds `LegalRagAgent.query` after the filter has been built (the body from the
`index.query` call on).  Every exception raised by a collaborator funnels
into the final `except` branch, which returns a normal dict — with no
`error` key — whose `response` describes the failure. -/
def legalRagQueryWithFilter (env : RagEnv) (query_text : String)
    (filter : Option YearFilterBounds) : SourceResult :=
  match env.search filter with
  | Except.error e =>
      { context := some "",
        response := "Error retrieving legal information: " ++ e,
        sources := [] }
  | Except.ok searchMatches =>
      if searchMatches.isEmpty then
        { context := some "",
          response := "I couldn\x27t find any relevant case law or legal information based on your query and filters. Please try a different query or adjust the year range.",
          sources := [] }
      else
        let combined := String.intercalate "\n\n---\n\n" (searchMatches.map ragContextEntry)
        match env.llm legalRagSystemPrompt (ragHumanPrompt combined query_text) with
        | Except.error e =>
            { context := some "",
              response := "Error retrieving legal information: " ++ e,
              sources := [] }
        | Except.ok content =>
            { context := some combined,
              response := content,
              sources := searchMatches.map (fun m =>
                { case_name := some (m.case_name.getD "Unknown case"),
                  citation := some (m.citation.getD ""),
                  year := some (m.year.getD "Unknown year"),
                  source := some (m.source.getD "Unknown source") }) }

/-- Embeds `agents/legal_rag_agent.py`, `LegalRagAgent.query`. -/
def LegalRagAgent.query (env : RagEnv) (query_text : String)
    (year_start year_end : Option Int) : SourceResult :=
  legalRagQueryWithFilter env query_text (buildYearFilter year_start year_end)

/-! ## Web-search adapter (`agents/websearch_agent.py`) -/

/-- One raw document returned by the search API; absent keys are `none`
and are replaced by the `result.get(..., default)` defaults.  The
floating-point `score` is defaulted and copied but never read downstream,
and is omitted. -/
structure RawWebDoc where
  title : Option String := none
  url : Option String := none
  content : Option String := none
  published_date : Option String := none
deriving DecidableEq

/-- Environment of the web-search adapter: the search call (on the
augmented query) and the insight-generation call. -/
structure WebEnv where
  search : String → Except String (List RawWebDoc)
  llm : String → String → Except String String

/-- The query augmentation of `WebSearchAgent.query`. -/
def webAugmentedQuery (query_text : String) : String :=
  "Massachusetts legal cases " ++ query_text ++ " recent interpretation court decisions"

/-- Embeds `formatted_results` of `WebSearchAgent.query`: one entry per raw doc. -/
def formatWebDoc (d : RawWebDoc) : WebResult :=
  { title := d.title.getD "",
    url := d.url.getD "",
    content := d.content.getD "",
    published_date := d.published_date.getD "" }

/-- One numbered block of the context of the insight prompt
(`WebSearchAgent._generate_insights`), including the 300-character
content snippet truncation. -/
def insightContextEntry (i : Nat) (r : WebResult) : String :=
  let snippet := if r.content.length > 300 then r.content.take 300 ++ "..." else r.content
  toString i ++ ". Title: " ++ r.title ++ "\n" ++
  "   URL: " ++ r.url ++ "\n" ++
  "   Published Date: " ++ r.published_date ++ "\n" ++
  "   Content Snippet: " ++ snippet ++ "\n\n"

/-- The accumulated context string of `_generate_insights`. -/
def insightContext (results : List WebResult) : String :=
  String.join (results.enum.map (fun p => insightContextEntry (p.1 + 1) p.2))

/-- The fixed system message of the insight-generation prompt. -/
def insightSystemPrompt : String :=
  String.intercalate "\n"
    ["You are a legal research analyst specializing in Massachusetts law.",
     "Analyze the following recent legal information to answer the query.",
     "Focus on extracting the most relevant and recent legal insights.",
     "Provide a balanced perspective considering multiple sources.",
     "Use formal legal writing style.",
     "",
     "IMPORTANT: Reference legal sources properly with standard legal citations.",
     "Organize your analysis by legal principles and trends.",
     "Include relevant statutes, regulations, and case law if mentioned in the sources."]

/-- The rendered human message of the insight-generation prompt. -/
def insightHumanPrompt (context query : String) : String :=
  "Recent legal information:\n" ++ context ++ "\n\nLegal Query: " ++ query

/-- Embeds `WebSearchAgent._generate_insights`: its own `try/except` turns a failed
generation call into an error-describing string, never an exception. -/
def generateInsights (env : WebEnv) (results : List WebResult) (query_text : String) : String :=
  match env.llm insightSystemPrompt (insightHumanPrompt (insightContext results) query_text) with
  | Except.ok content => content
  | Except.error e => "Error generating insights from web search: " ++ e

/-- Embeds `agents/websearch_agent.py`, `WebSearchAgent.query`.  The `except`
branch returns a normal dict — with no `error` key — whose `response`
describes the failure. -/
def WebSearchAgent.query (env : WebEnv) (query_text : String) : SourceResult :=
  match env.search (webAugmentedQuery query_text) with
  | Except.error e =>
      { results := some [],
        response := "Error retrieving web information: " ++ e,
        sources := [] }
  | Except.ok docs =>
      let formatted := docs.map formatWebDoc
      let insights := generateInsights env formatted query_text
      { results := some formatted,
        response := insights,
        sources := formatted.map (fun r =>
          { title := some r.title,
            url := some r.url,
            published_date := some r.published_date }) }

/-! ## Synthesis engine (`agents/synthesis_agent.py`) -/

/-- The result dict of `SynthesisAgent.synthesize`. -/
structure SynthResult where
  content : String
  sources : List SourceRec
deriving DecidableEq

/-- The `agent_results` dict passed to synthesis: only the keys
`legal_rag` and `websearch` are ever written or read. -/
structure AgentResults where
  legal_rag : Option SourceResult := none
  websearch : Option SourceResult := none
deriving DecidableEq

/-- Embeds `historical_content` in `SynthesisAgent.synthesize`
(`rag_results.get("response", "")`; every producer variant carries a
`response` key). -/
def ragResponse (ar : AgentResults) : String :=
  match ar.legal_rag with
  | some r => r.response
  | none => ""

/-- Embeds `web_content` in `SynthesisAgent.synthesize`. -/
def webResponse (ar : AgentResults) : String :=
  match ar.websearch with
  | some r => r.response
  | none => ""

/-- The case-law contribution to `all_sources` (guarded by
`if "sources" in rag_results`; the key is present in every variant). -/
def ragSources (ar : AgentResults) : List SourceRec :=
  match ar.legal_rag with
  | some r => r.sources
  | none => []

/-- The web contribution to `all_sources`. -/
def webSources (ar : AgentResults) : List SourceRec :=
  match ar.websearch with
  | some r => r.sources
  | none => []

/-- The `(max_pages, detail_level)` pure lookup on the length tier. -/
def lengthParams (length : String) : String × String :=
  if length == "brief" then
    ("5-7", "concise overview of key points")
  else if length == "standard" then
    ("10-15", "balanced analysis with moderate detail")
  else
    ("20-30", "in-depth analysis with thorough examination of legal principles")

/-- The rendered `system_template` of the synthesis prompt. -/
def synthSystemPrompt (format length : String) : String :=
  let p := lengthParams length
  String.intercalate "\n"
    ["You are a specialized legal research assistant creating formal legal research reports.",
     "",
     "Your task is to synthesize historical Massachusetts case law with recent legal commentary and web information",
     "to produce a comprehensive " ++ p.1 ++ " page legal research report.",
     "",
     "Follow these guidelines:",
     "1. Write in formal legal style with proper citations",
     "2. Create a " ++ p.2,
     "3. Organize by legal principles and precedents",
     "4. Include both historical context and current interpretations",
     "5. Format as a professional legal research memorandum",
     "6. Include executive summary, table of contents, methodology, analysis, and conclusion sections",
     "7. Use proper legal citation format",
     "8. Add footnotes for important references",
     "",
     "Output format: " ++ format,
     "Output length: " ++ p.1 ++ " pages"]

/-- The rendered `human_template` of the synthesis prompt. -/
def synthHumanPrompt (query historical_content web_content : String) : String :=
  "LEGAL QUERY:\n" ++ query ++
  "\n\nHISTORICAL CASE LAW INFORMATION:\n" ++ historical_content ++
  "\n\nRECENT LEGAL COMMENTARY AND WEB INFORMATION:\n" ++ web_content

/-- Embeds `agents/synthesis_agent.py`, `SynthesisAgent.synthesize`.  The
engine has its own `try/except` converts a failed generation call into a normally-returned
dict with a failure-describing `content` and empty `sources` — it never
raises. -/
def SynthesisAgent.synthesize (llm : String → String → Except String String)
    (query : String) (agent_results : AgentResults)
    (format length : String) : SynthResult :=
  let all_sources := ragSources agent_results ++ webSources agent_results
  match llm (synthSystemPrompt format length)
            (synthHumanPrompt query (ragResponse agent_results) (webResponse agent_results)) with
  | Except.ok content => { content := content, sources := all_sources }
  | Except.error e =>
      { content := "Error synthesizing research report: " ++ e, sources := [] }

/-! ## Job records and the two transport bindings (`app.py`, `server.py`)

Timestamps (`time.time()`) are modelled as abstract clock readings of type
`Nat` supplied by the environment.  Each job record is only ever written by
the one execution path processing it, so the pipelines are embedded as
functions from the created record to the final record. -/

/-- The request-parameter block kept on a job.  The REST bindings nest it
under a `metadata` key (with the validation result); the MCP tool stores
the same parameters at the top level of the job dict and no validation
result. -/
structure JobMetadata where
  format : String
  length : String
  agents : List String
  year_start : Option Int := none
  year_end : Option Int := none
  validation : Option ValidationResult := none
deriving DecidableEq

/-- One entry of the in-memory research store (`research_results` in
`app.py`, `research_store` in `server.py`). -/
structure ResearchJob where
  research_id : String
  query : String
  status : String
  content : Option String := none
  sources : List SourceRec := []
  metadata : JobMetadata
  started_at : Nat
  completed_at : Option Nat := none
  error : Option String := none
deriving DecidableEq

/-- The submission request body (`ResearchQuery` pydantic model). -/
structure ResearchQuery where
  query : String
  format : String := "markdown"
  length : String := "comprehensive"
  agents : List String := ["legal_rag", "websearch"]
  year_start : Option Int := none
  year_end : Option Int := none
deriving DecidableEq

/-- The submission response body (`ResearchResponse` pydantic model). -/
structure SubmitResponse where
  research_id : String
  status : String
  message : String
deriving DecidableEq

/-- Environment of one job execution: the outcome of each adapter call as
seen at the call-site in the orchestrator (`.error` models the call raising),
the synthesis generation call, and the clock reading taken at completion. -/
structure OrchEnv where
  ragCall : Except String SourceResult
  webCall : Except String SourceResult
  synthLLM : String → String → Except String String
  tEnd : Nat

/-- The initial job record stored by the REST `start_research` handlers
(`app.py` lines 93–112, identically `server.py` lines 104–124). -/
def initialJob (rid : String) (req : ResearchQuery) (t0 : Nat) : ResearchJob :=
  { research_id := rid,
    query := req.query,
    status := "pending",
    content := none,
    sources := [],
    metadata := { format := req.format, length := req.length, agents := req.agents,
                  year_start := req.year_start, year_end := req.year_end,
                  validation := some (validate_research_query req.query) },
    started_at := t0,
    completed_at := none,
    error := none }

/-- Embeds `app.py`, `start_research`: validate, allocate, store `pending`, return
immediately; `Except.error` models the HTTP 400 rejection (no job
created). -/
def start_research (rid : String) (req : ResearchQuery) (t0 : Nat) :
    Except String (ResearchJob × SubmitResponse) :=
  let validation := validate_research_query req.query
  if !validation.valid then
    Except.error ("Invalid query: " ++ String.intercalate ", " validation.warnings)
  else
    Except.ok (initialJob rid req t0,
      { research_id := rid,
        status := "pending",
        message := "Research started. Use /research/{research_id} to check status." })

/-- The per-provider dispatch of `app.py` `conduct_research` (lines
195–225): each adapter call is wrapped in its own `try/except`, and a
raised exception is absorbed into an error-placeholder dict for that
provider (these dicts — unlike the degraded returns built inside the adapters — do
carry an `error` key). -/
def runAgents (env : OrchEnv) (agents : List String) : AgentResults :=
  let ar : AgentResults := {}
  let ar :=
    if agents.contains "legal_rag" then
      { ar with legal_rag := some (match env.ragCall with
          | Except.ok r => r
          | Except.error e =>
              { error := some e,
                response := "Error retrieving from legal database",
                sources := [] }) }
    else ar
  if agents.contains "websearch" then
    { ar with websearch := some (match env.webCall with
        | Except.ok r => r
        | Except.error e =>
            { error := some e,
              response := "Error retrieving from web sources",
              sources := [] }) }
  else ar

/-- Embeds `server.py`, `perform_research`: as `runAgents`, except that the
error-placeholder dicts additionally carry a `content` key. -/
def perform_research (env : OrchEnv) (agents : List String) : AgentResults :=
  let ar : AgentResults := {}
  let ar :=
    if agents.contains "legal_rag" then
      { ar with legal_rag := some (match env.ragCall with
          | Except.ok r => r
          | Except.error e =>
              { error := some e,
                content := some "Error retrieving from legal database",
                response := "Error retrieving from legal database",
                sources := [] }) }
    else ar
  if agents.contains "websearch" then
    { ar with websearch := some (match env.webCall with
        | Except.ok r => r
        | Except.error e =>
            { error := some e,
              content := some "Error retrieving from web sources",
              response := "Error retrieving from web sources",
              sources := [] }) }
  else ar

/-- The inner `try/except` of the REST background task (`app.py` lines
228–254, identically `server.py` `conduct_research_task` lines 466–493),
given the outcome of the `synthesize` call: success stores
`status="completed"`, the content and the `format_sources`-normalized
sources; a raised exception stores `status="failed"` and the error text —
both record a completion timestamp. -/
def finishJob (job : ResearchJob) (synthOutcome : Except String SynthResult)
    (tEnd : Nat) : ResearchJob :=
  match synthOutcome with
  | Except.ok sr =>
      { job with status := "completed",
                 content := some sr.content,
                 sources := format_sources sr.sources,
                 completed_at := some tEnd }
  | Except.error e =>
      { job with status := "failed",
                 error := some ("Error in synthesis: " ++ e),
                 completed_at := some tEnd }

/-- Embeds `app.py`, `conduct_research` (the REST background task): mark the job
`in_progress`, dispatch the requested providers, synthesize, finish.  The
embedded `SynthesisAgent.synthesize` is total (its generation failure is
returned as data), so the synthesize call-site outcome is always `ok`;
likewise the outer `except Exception` branch (`Error in research process`)
is unreachable for the embedded total collaborators. -/
def conduct_research (env : OrchEnv) (job0 : ResearchJob)
    (query format length : String) (agents : List String) : ResearchJob :=
  let j1 := { job0 with status := "in_progress" }
  let agent_results := runAgents env agents
  finishJob j1
    (Except.ok (SynthesisAgent.synthesize env.synthLLM query agent_results format length))
    env.tEnd

/-- The successive states a REST job record passes through: stored
`pending`, marked `in_progress`, then finished. -/
def appJobTrace (env : OrchEnv) (job0 : ResearchJob)
    (query format length : String) (agents : List String) : List ResearchJob :=
  [job0,
   { job0 with status := "in_progress" },
   conduct_research env job0 query format length agents]

/-- The value returned to the MCP caller by the `conduct_research` tool. -/
structure McpResearchOutput where
  research_id : String
  status : String
  content : Option String := none
  sources : Option (List SourceRec) := none
  error : Option String := none
deriving DecidableEq

/-- The initial job record stored by the MCP `conduct_research` tool
(`server.py` lines 228–241): created directly `in_progress`, request
parameters at top level, no `completed_at` key yet. -/
def mcpInitialJob (rid : String) (query format length : String)
    (agents : List String) (year_start year_end : Option Int) (t0 : Nat) : ResearchJob :=
  { research_id := rid,
    query := query,
    status := "in_progress",
    content := none,
    sources := [],
    metadata := { format := format, length := length, agents := agents,
                  year_start := year_start, year_end := year_end,
                  validation := none },
    started_at := t0,
    completed_at := none,
    error := none }

/-- The `try/except` of the MCP `conduct_research` tool (`server.py` lines
243–289), given the outcome of the research-plus-synthesize body: success
stores `status="completed"` with the content and the *raw* merged sources
(no `format_sources` normalization); a raised exception stores
`status="failed"` with the error text. -/
def mcpFinish (job : ResearchJob) (rid : String)
    (outcome : Except String SynthResult) (tEnd : Nat) : ResearchJob × McpResearchOutput :=
  match outcome with
  | Except.ok sr =>
      ({ job with status := "completed",
                  content := some sr.content,
                  sources := sr.sources,
                  completed_at := some tEnd },
       { research_id := rid,
         status := "completed",
         content := some sr.content,
         sources := some sr.sources })
  | Except.error e =>
      ({ job with status := "failed",
                  error := some ("Error in research process: " ++ e),
                  completed_at := some tEnd },
       { research_id := rid,
         status := "failed",
         error := some e })

/-- Embeds `server.py`, the MCP `conduct_research` tool: stores the job directly
`in_progress`, runs the pipeline inline (the caller awaits the result; no
background task, no validation), and stores/returns the terminal record.
The embedded body is total, so the `except` branch of `mcpFinish` is
unreachable here. -/
def mcpConductResearch (env : OrchEnv) (rid : String)
    (query format length : String) (agents : List String)
    (year_start year_end : Option Int) (t0 : Nat) : ResearchJob × McpResearchOutput :=
  let job0 := mcpInitialJob rid query format length agents year_start year_end t0
  let agent_results := perform_research env agents
  mcpFinish job0 rid
    (Except.ok (SynthesisAgent.synthesize env.synthLLM query agent_results format length))
    env.tEnd

/-- The successive states an MCP job record passes through. -/
def mcpJobTrace (env : OrchEnv) (rid : String)
    (query format length : String) (agents : List String)
    (year_start year_end : Option Int) (t0 : Nat) : List ResearchJob :=
  [mcpInitialJob rid query format length agents year_start year_end t0,
   (mcpConductResearch env rid query format length agents year_start year_end t0).1]

/-- Embeds `server.py`, `conduct_research_task` (the REST background task of the
MCP-hosting server): identical to `app.py` `conduct_research` except that
the provider dispatch goes through `perform_research`. -/
def conduct_research_task (env : OrchEnv) (job0 : ResearchJob)
    (query format length : String) (agents : List String) : ResearchJob :=
  let j1 := { job0 with status := "in_progress" }
  let agent_results := perform_research env agents
  finishJob j1
    (Except.ok (SynthesisAgent.synthesize env.synthLLM query agent_results format length))
    env.tEnd

/-! ## Concrete fixtures used by witnesses and counterexamples -/

/-- A generation collaborator that always succeeds with a fixed report. -/
def okLLM : String → String → Except String String := fun _ _ => Except.ok "REPORT"

/-- A generation collaborator whose call always raises. -/
def failLLM : String → String → Except String String := fun _ _ => Except.error "LLM unavailable"

/-- A generation collaborator that succeeds with an empty output. -/
def emptyLLM : String → String → Except String String := fun _ _ => Except.ok ""

/-- A sample case-law citation record. -/
def caseSrcW : SourceRec :=
  { case_name := some "Smith v. Jones", citation := some "400 Mass. 1",
    year := some "1987", source := some "mass-reports" }

/-- A sample web citation record. -/
def webSrcW : SourceRec :=
  { title := some "Adverse possession guide", url := some "https://www.mass.gov/guide",
    published_date := some "2021-06-01" }

/-- A successful case-law adapter result. -/
def ragOkW : SourceResult :=
  { context := some "ctx", response := "historical analysis", sources := [caseSrcW] }

/-- A successful web-search adapter result. -/
def webOkW : SourceResult :=
  { results := some [], response := "recent analysis", sources := [webSrcW] }

/-- A sample valid submission request. -/
def reqW : ResearchQuery :=
  { query := "Massachusetts adverse possession law elements" }

/-- An execution environment in which every collaborator succeeds. -/
def envOkW : OrchEnv :=
  { ragCall := Except.ok ragOkW, webCall := Except.ok webOkW, synthLLM := okLLM, tEnd := 5 }

/-- An execution environment in which only the synthesis generation call
raises. -/
def envFailSynthW : OrchEnv :=
  { ragCall := Except.ok ragOkW, webCall := Except.ok webOkW, synthLLM := failLLM, tEnd := 5 }

/-- An execution environment in which the synthesis generation call
succeeds with an empty output. -/
def envEmptyW : OrchEnv :=
  { ragCall := Except.ok ragOkW, webCall := Except.ok webOkW, synthLLM := emptyLLM, tEnd := 5 }

/-- An execution environment in which the case-law adapter call raises. -/
def envRagFailW : OrchEnv :=
  { ragCall := Except.error "pinecone down", webCall := Except.ok webOkW,
    synthLLM := okLLM, tEnd := 5 }

/-- A case-law adapter environment whose vector search raises. -/
def ragFailEnvW : RagEnv :=
  { search := fun _ => Except.error "pinecone down", llm := fun _ _ => Except.ok "unused" }

/-- A web adapter environment whose search call raises. -/
def webFailEnvW : WebEnv :=
  { search := fun _ => Except.error "tavily down", llm := fun _ _ => Except.ok "unused" }

/-- The job record created for `reqW` by the REST submit handler. -/
def job0W : ResearchJob := initialJob "research_w" reqW 1

/-- Provider results in which one citation appears under both providers. -/
def arDupW : AgentResults :=
  { legal_rag := some { response := "a", sources := [caseSrcW, webSrcW] },
    websearch := some { response := "b", sources := [caseSrcW] } }

/-- A citation record carrying neither a `case_name` nor a `url` key. -/
def emptySrcW : SourceRec := { citation := some "?" }

/-- The normalized form of `caseSrcW`. -/
def caseFmtW : SourceRec :=
  { type := some "case_law", case_name := some "Smith v. Jones",
    citation := some "400 Mass. 1", year := some "1987", url := some "",
    source := some "mass-reports" }

/-- A nonempty string prepended to another is still nonempty. -/
theorem append_ne_empty_left (a b : String) (h : a.length ≠ 0) : a ++ b ≠ "" := by
  intro hc
  have hl : (a ++ b).length = 0 := by rw [hc]; rfl
  rw [String.length_append] at hl
  omega

/-! ## Claim theorems -/

/-- C7: the case-law adapter translates the optional `(yearStart, yearEnd)`
pair into the range filter of the vector store — both bounds when both years are
given, one side when only one is given, no filter when neither — and under
a `(1990, 2010)` filter a match with year 1985 does not satisfy the filter
passed to the collaborator. -/
theorem year_filter_translation :
    (∀ s e : Int, buildYearFilter (some s) (some e) =
      some { gte := some (toString s), lte := some (toString e) }) ∧
    (∀ s : Int, buildYearFilter (some s) none = some { gte := some (toString s), lte := none }) ∧
    (∀ e : Int, buildYearFilter none (some e) = some { gte := none, lte := some (toString e) }) ∧
    buildYearFilter none none = none ∧
    (∀ (renv : RagEnv) (q : String) (ys ye : Option Int),
      LegalRagAgent.query renv q ys ye = legalRagQueryWithFilter renv q (buildYearFilter ys ye)) ∧
    matchesYearFilter (buildYearFilter (some 1990) (some 2010)) "1985" = false ∧
    matchesYearFilter (buildYearFilter (some 1990) (some 2010)) "1995" = true :=
  ⟨fun _ _ => rfl, fun _ => rfl, fun _ => rfl, rfl, fun _ _ _ _ => rfl,
   by decide, by decide⟩

/-- C8: when the generation call succeeds, the output sources list of the
synthesis engine is exactly the case-law sources followed by the
web-search sources — concatenation in encounter order, with no
deduplication, reordering, addition or dropping. -/
theorem synthesis_sources_concat
    (llm : String → String → Except String String) (q f l : String)
    (ar : AgentResults) (out : String)
    (h : llm (synthSystemPrompt f l)
          (synthHumanPrompt q (ragResponse ar) (webResponse ar)) = Except.ok out) :
    (SynthesisAgent.synthesize llm q ar f l).sources = ragSources ar ++ webSources ar := by
  unfold SynthesisAgent.synthesize
  rw [h]

/-- C8 witness: a duplicated citation across providers is kept twice and
order is preserved. -/
theorem synthesis_sources_concat_witness :
    okLLM (synthSystemPrompt "markdown" "brief")
        (synthHumanPrompt "q" (ragResponse arDupW) (webResponse arDupW)) = Except.ok "REPORT" ∧
    (SynthesisAgent.synthesize okLLM "q" arDupW "markdown" "brief").sources =
      ragSources arDupW ++ webSources arDupW :=
  ⟨rfl, synthesis_sources_concat okLLM "q" "markdown" "brief" arDupW "REPORT" rfl⟩

/-- C10: in the REST binding, the sources stored on a completed job are the
merged provider sources passed through `format_sources`, which tags every
kept record `case_law` (a `case_name` key is present) or `web` (a `url`
key, no `case_name`), silently drops records with neither key, never
lengthens the list, and leaves every stored record with exactly one of the
two citation shapes. -/
theorem format_sources_normalization :
    (∀ (env : OrchEnv) (job0 : ResearchJob) (q f l : String) (ags : List String),
      (conduct_research env job0 q f l ags).sources =
        format_sources (SynthesisAgent.synthesize env.synthLLM q (runAgents env ags) f l).sources) ∧
    (∀ srcs : List SourceRec, format_sources srcs = srcs.filterMap formatOneSource) ∧
    (∀ srcs : List SourceRec, (format_sources srcs).length ≤ srcs.length) ∧
    (∀ s : SourceRec, s.case_name.isSome = true →
      (formatOneSource s).map (fun r => r.type) = some (some "case_law")) ∧
    (∀ s : SourceRec, s.case_name = none → s.url.isSome = true →
      (formatOneSource s).map (fun r => r.type) = some (some "web")) ∧
    (∀ s : SourceRec, s.case_name = none → s.url = none → formatOneSource s = none) ∧
    (∀ (srcs : List SourceRec) (r : SourceRec), r ∈ format_sources srcs →
      r.type = some "case_law" ∨ r.type = some "web") := by
  refine ⟨fun env job0 q f l ags => rfl, fun srcs => rfl,
    fun srcs => List.length_filterMap_le _ _, ?_, ?_, ?_, ?_⟩
  · intro s h
    simp [formatOneSource, h]
  · intro s h1 h2
    simp [formatOneSource, h1, h2]
  · intro s h1 h2
    simp [formatOneSource, h1, h2]
  · intro srcs r hr
    unfold format_sources at hr
    rw [List.mem_filterMap] at hr
    obtain ⟨s, _, hfs⟩ := hr
    unfold formatOneSource at hfs
    split_ifs at hfs
    · have hfs2 := Option.some_inj.mp hfs
      subst hfs2
      left
      rfl
    · have hfs2 := Option.some_inj.mp hfs
      subst hfs2
      right
      rfl

/-- C10 witness: the normalization applied to a case-law record and a
record with neither citation key. -/
theorem format_sources_normalization_witness :
    caseFmtW ∈ format_sources [caseSrcW, emptySrcW] ∧
    (caseFmtW.type = some "case_law" ∨ caseFmtW.type = some "web") :=
  ⟨by decide,
   format_sources_normalization.2.2.2.2.2.2 [caseSrcW, emptySrcW] caseFmtW (by decide)⟩

/-- C2 counterexample: when the underlying provider raises, both adapters
return normally with a failure-describing `response`, but the `error`
field of the returned result is *not* set (the `except`
branches return dicts without an `error` key). -/
theorem adapter_error_field_unset_cex :
    ragFailEnvW.search (buildYearFilter none none) = Except.error "pinecone down" ∧
    (LegalRagAgent.query ragFailEnvW "massachusetts tort law" none none).error = none ∧
    (LegalRagAgent.query ragFailEnvW "massachusetts tort law" none none).response =
      "Error retrieving legal information: pinecone down" ∧
    webFailEnvW.search (webAugmentedQuery "massachusetts tort law") = Except.error "tavily down" ∧
    (WebSearchAgent.query webFailEnvW "massachusetts tort law").error = none ∧
    (WebSearchAgent.query webFailEnvW "massachusetts tort law").response =
      "Error retrieving web information: tavily down" := by
  refine ⟨rfl, rfl, ?_, rfl, rfl, ?_⟩ <;> decide

/-- C2 amended: on a provider error each adapter returns normally — never
propagating the exception — with empty `sources` and a non-empty `response`
string describing the failure, but with the `error` field left unset; an
`error` tag is only attached by the per-call orchestrator fallback when
the adapter call itself raises. -/
theorem adapters_absorb_provider_errors
    (renv : RagEnv) (wenv : WebEnv) (q : String) (ys ye : Option Int) (e1 e2 : String)
    (hr : renv.search (buildYearFilter ys ye) = Except.error e1)
    (hw : wenv.search (webAugmentedQuery q) = Except.error e2) :
    (LegalRagAgent.query renv q ys ye).error = none ∧
    (LegalRagAgent.query renv q ys ye).response = "Error retrieving legal information: " ++ e1 ∧
    (LegalRagAgent.query renv q ys ye).response ≠ "" ∧
    (LegalRagAgent.query renv q ys ye).sources = [] ∧
    (WebSearchAgent.query wenv q).error = none ∧
    (WebSearchAgent.query wenv q).response = "Error retrieving web information: " ++ e2 ∧
    (WebSearchAgent.query wenv q).response ≠ "" ∧
    (WebSearchAgent.query wenv q).sources = [] := by
  unfold LegalRagAgent.query legalRagQueryWithFilter WebSearchAgent.query
  rw [hr, hw]
  refine ⟨rfl, rfl, append_ne_empty_left _ _ (by decide), rfl,
          rfl, rfl, append_ne_empty_left _ _ (by decide), rfl⟩

/-- C2 amended witness. -/
theorem adapters_absorb_provider_errors_witness :
    ragFailEnvW.search (buildYearFilter none none) = Except.error "pinecone down" ∧
    (LegalRagAgent.query ragFailEnvW "massachusetts zoning law" none none).error = none :=
  ⟨rfl, (adapters_absorb_provider_errors ragFailEnvW webFailEnvW
    "massachusetts zoning law" none none "pinecone down" "tavily down" rfl rfl).1⟩

/-- C3: a raised provider call is absorbed into the entry of that provider in
the result map (with the `error` tag set), the pipeline proceeds to
synthesis over the collected results, and the job still reaches the
terminal status `completed` — no provider failure alone forces
`status=failed`. -/
theorem provider_failure_isolated
    (env : OrchEnv) (job0 : ResearchJob) (q f l : String) (ags : List String) (e : String)
    (h : env.ragCall = Except.error e) (hm : "legal_rag" ∈ ags) :
    (conduct_research env job0 q f l ags).status = "completed" ∧
    (runAgents env ags).legal_rag =
      some { error := some e, response := "Error retrieving from legal database", sources := [] } ∧
    (conduct_research env job0 q f l ags).content =
      some (SynthesisAgent.synthesize env.synthLLM q (runAgents env ags) f l).content ∧
    (∀ e2, env.webCall = Except.error e2 → "websearch" ∈ ags →
      (runAgents env ags).websearch =
        some { error := some e2, response := "Error retrieving from web sources", sources := [] }) := by
  refine ⟨rfl, ?_, rfl, ?_⟩
  · by_cases hw : "websearch" ∈ ags <;> simp [runAgents, hm, h, hw]
  · intro e2 hw2 hmw
    simp [runAgents, hmw, hw2]

/-- C3 witness: a failing case-law provider call in an otherwise healthy
job. -/
theorem provider_failure_isolated_witness :
    envRagFailW.ragCall = Except.error "pinecone down" ∧
    (conduct_research envRagFailW job0W reqW.query "markdown" "comprehensive"
        ["legal_rag", "websearch"]).status = "completed" :=
  ⟨rfl, (provider_failure_isolated envRagFailW job0W reqW.query "markdown" "comprehensive"
    ["legal_rag", "websearch"] "pinecone down" rfl (by simp)).1⟩

/-- C9: a providers list with no recognized name dispatches no provider
(the result map stays empty, unknown names are ignored rather than
rejected), synthesis still runs over the empty result map, and the job
reaches `status=completed`. -/
theorem empty_providers_still_completes
    (env : OrchEnv) (job0 : ResearchJob) (rid q f l : String) (ags : List String)
    (ys ye : Option Int) (t0 : Nat)
    (h1 : "legal_rag" ∉ ags) (h2 : "websearch" ∉ ags) :
    perform_research env ags = { legal_rag := none, websearch := none } ∧
    runAgents env ags = { legal_rag := none, websearch := none } ∧
    (mcpConductResearch env rid q f l ags ys ye t0).1.status = "completed" ∧
    (mcpConductResearch env rid q f l ags ys ye t0).1.content =
      some (SynthesisAgent.synthesize env.synthLLM q (perform_research env ags) f l).content ∧
    (conduct_research env job0 q f l ags).status = "completed" := by
  refine ⟨?_, ?_, rfl, rfl, rfl⟩
  · simp [perform_research, h1, h2]
  · simp [runAgents, h1, h2]

/-- C9 witness: an unrecognized provider name is ignored and the job
completes. -/
theorem empty_providers_still_completes_witness :
    "legal_rag" ∉ (["unknown_agent"] : List String) ∧
    (mcpConductResearch envOkW "research_w" reqW.query "markdown" "brief"
        ["unknown_agent"] none none 1).1.status = "completed" :=
  ⟨by simp, (empty_providers_still_completes envOkW job0W "research_w" reqW.query
    "markdown" "brief" ["unknown_agent"] none none 1 (by simp) (by simp)).2.2.1⟩

/-- The REST background task unfolded: mark `in_progress`, dispatch, then
finish on the (always-`ok`) outcome of the total embedded synthesize call. -/
theorem conduct_research_eq (env : OrchEnv) (job0 : ResearchJob)
    (q f l : String) (ags : List String) :
    conduct_research env job0 q f l ags =
      finishJob { job0 with status := "in_progress" }
        (Except.ok (SynthesisAgent.synthesize env.synthLLM q (runAgents env ags) f l))
        env.tEnd := rfl

/-- C1 counterexample: a job whose synthesis generation call fails is
recorded `completed` — with the failure text as `content`, `error` unset —
not `failed`, because the engine returns the failure as data and the
failed branch of the orchestrator only fires on a raised exception. -/
theorem generation_failure_completes_job_cex :
    (conduct_research envFailSynthW job0W reqW.query "markdown" "comprehensive"
        ["legal_rag", "websearch"]).status = "completed" ∧
    (conduct_research envFailSynthW job0W reqW.query "markdown" "comprehensive"
        ["legal_rag", "websearch"]).error = none ∧
    (conduct_research envFailSynthW job0W reqW.query "markdown" "comprehensive"
        ["legal_rag", "websearch"]).content =
      some "Error synthesizing research report: LLM unavailable" ∧
    (conduct_research envFailSynthW job0W reqW.query "markdown" "comprehensive"
        ["legal_rag", "websearch"]).completed_at = some 5 := by
  refine ⟨rfl, rfl, by decide, rfl⟩

/-- C1 corrected: the orchestrator sets `status=failed`, `error` and
`completedAt` only when the synthesize call itself raises; the engine
catches generation failures and returns them as a content string, so a
failed generation call leaves the job `completed` with the failure text as
content and `error` untouched. -/
theorem synthesis_exception_vs_generation_failure
    (j : ResearchJob) (e : String) (t : Nat)
    (env : OrchEnv) (job0 : ResearchJob) (q f l : String) (ags : List String) (msg : String)
    (h : env.synthLLM (synthSystemPrompt f l)
          (synthHumanPrompt q (ragResponse (runAgents env ags)) (webResponse (runAgents env ags)))
        = Except.error msg) :
    (finishJob j (Except.error e) t).status = "failed" ∧
    (finishJob j (Except.error e) t).error = some ("Error in synthesis: " ++ e) ∧
    (finishJob j (Except.error e) t).completed_at = some t ∧
    (conduct_research env job0 q f l ags).status = "completed" ∧
    (conduct_research env job0 q f l ags).content =
      some ("Error synthesizing research report: " ++ msg) ∧
    (conduct_research env job0 q f l ags).error = job0.error := by
  refine ⟨rfl, rfl, rfl, rfl, ?_, rfl⟩
  rw [conduct_research_eq]
  unfold SynthesisAgent.synthesize
  rw [h]
  rfl

/-- C1 witness: a concrete generation failure. -/
theorem synthesis_exception_vs_generation_failure_witness :
    envFailSynthW.synthLLM (synthSystemPrompt "markdown" "comprehensive")
        (synthHumanPrompt reqW.query
          (ragResponse (runAgents envFailSynthW ["legal_rag", "websearch"]))
          (webResponse (runAgents envFailSynthW ["legal_rag", "websearch"])))
      = Except.error "LLM unavailable" ∧
    (conduct_research envFailSynthW job0W reqW.query "markdown" "comprehensive"
        ["legal_rag", "websearch"]).content =
      some ("Error synthesizing research report: " ++ "LLM unavailable") :=
  ⟨rfl, (synthesis_exception_vs_generation_failure job0W "boom" 3 envFailSynthW job0W
    reqW.query "markdown" "comprehensive" ["legal_rag", "websearch"] "LLM unavailable"
    rfl).2.2.2.2.1⟩

/-- The synthesized report does not depend on which dispatch wrapper
(`runAgents` of `app.py` or `perform_research` of `server.py`) collected
the provider results: their placeholder dicts differ only in the unread
`content` key. -/
theorem synthesize_dispatch_irrelevant
    (llm : String → String → Except String String) (env : OrchEnv)
    (q f l : String) (ags : List String) :
    SynthesisAgent.synthesize llm q (runAgents env ags) f l =
      SynthesisAgent.synthesize llm q (perform_research env ags) f l := by
  by_cases h1 : "legal_rag" ∈ ags <;> by_cases h2 : "websearch" ∈ ags <;>
    cases hr : env.ragCall <;> cases hw : env.webCall <;>
      simp [SynthesisAgent.synthesize, ragResponse, webResponse, ragSources, webSources,
            runAgents, perform_research, h1, h2, hr, hw]

/-- C4 counterexample: for one and the same submission, the REST binding
creates the job `pending` while the MCP tool creates it `in_progress`, and
the two bindings store different terminal `sources` (normalized versus
raw). -/
theorem transport_bindings_divergence_cex :
    job0W.status = "pending" ∧
    (mcpInitialJob "research_w" reqW.query reqW.format reqW.length reqW.agents
        reqW.year_start reqW.year_end 1).status = "in_progress" ∧
    (conduct_research envOkW job0W reqW.query reqW.format reqW.length reqW.agents).sources ≠
      (mcpConductResearch envOkW "research_w" reqW.query reqW.format reqW.length reqW.agents
          reqW.year_start reqW.year_end 1).1.sources := by
  refine ⟨rfl, rfl, by decide⟩

/-- C4 corrected: for identical submissions under identical collaborator
environments the two bindings agree on the terminal `status`, `content`
and `completedAt`, but the REST binding starts jobs `pending` (detached
execution) while the MCP tool starts them `in_progress` (inline
execution), and the REST binding stores the `format_sources`-normalized
image of the raw sources the MCP tool stores. -/
theorem transport_bindings_refinement
    (env : OrchEnv) (rid : String) (req : ResearchQuery) (t0 : Nat) :
    (initialJob rid req t0).status = "pending" ∧
    (mcpInitialJob rid req.query req.format req.length req.agents
        req.year_start req.year_end t0).status = "in_progress" ∧
    (conduct_research env (initialJob rid req t0) req.query req.format req.length req.agents).status =
      (mcpConductResearch env rid req.query req.format req.length req.agents
          req.year_start req.year_end t0).1.status ∧
    (conduct_research env (initialJob rid req t0) req.query req.format req.length req.agents).content =
      (mcpConductResearch env rid req.query req.format req.length req.agents
          req.year_start req.year_end t0).1.content ∧
    (conduct_research env (initialJob rid req t0) req.query req.format req.length req.agents).completed_at =
      (mcpConductResearch env rid req.query req.format req.length req.agents
          req.year_start req.year_end t0).1.completed_at ∧
    (conduct_research env (initialJob rid req t0) req.query req.format req.length req.agents).sources =
      format_sources
        (mcpConductResearch env rid req.query req.format req.length req.agents
            req.year_start req.year_end t0).1.sources := by
  refine ⟨rfl, rfl, rfl, ?_, rfl, ?_⟩
  · show some (SynthesisAgent.synthesize env.synthLLM req.query
        (runAgents env req.agents) req.format req.length).content =
      some (SynthesisAgent.synthesize env.synthLLM req.query
        (perform_research env req.agents) req.format req.length).content
    rw [synthesize_dispatch_irrelevant]
  · show format_sources (SynthesisAgent.synthesize env.synthLLM req.query
        (runAgents env req.agents) req.format req.length).sources =
      format_sources (SynthesisAgent.synthesize env.synthLLM req.query
        (perform_research env req.agents) req.format req.length).sources
    rw [synthesize_dispatch_irrelevant]

/-- C5: at every point of the lifecycle of a job, over both bindings,
`completedAt` is set iff the status is terminal (`completed` or
`failed`). -/
theorem completedAt_iff_terminal
    (env : OrchEnv) (rid : String) (req : ResearchQuery) (t0 : Nat) (j : ResearchJob)
    (h : j ∈ appJobTrace env (initialJob rid req t0) req.query req.format req.length req.agents ++
         mcpJobTrace env rid req.query req.format req.length req.agents
           req.year_start req.year_end t0) :
    (j.completed_at.isSome = true ↔ (j.status = "completed" ∨ j.status = "failed")) := by
  simp [appJobTrace, mcpJobTrace] at h
  rcases h with h | h | h | h | h <;> subst h <;>
    simp [initialJob, conduct_research, finishJob, mcpInitialJob, mcpConductResearch, mcpFinish]

/-- C5 witness: the freshly created `pending` job. -/
theorem completedAt_iff_terminal_witness :
    job0W ∈ appJobTrace envOkW (initialJob "research_w" reqW 1)
        reqW.query reqW.format reqW.length reqW.agents ++
      mcpJobTrace envOkW "research_w" reqW.query reqW.format reqW.length reqW.agents
        reqW.year_start reqW.year_end 1 ∧
    (job0W.completed_at.isSome = true ↔ (job0W.status = "completed" ∨ job0W.status = "failed")) :=
  ⟨by simp [appJobTrace, job0W],
   completedAt_iff_terminal envOkW "research_w" reqW 1 job0W (by simp [appJobTrace, job0W])⟩

/-- C6 counterexample: when the generation call succeeds with an empty
output, the completed job carries `content = some ""` and `error = none`,
so at this terminal job *neither* field is a non-empty string. -/
theorem terminal_content_error_cex :
    (conduct_research envEmptyW job0W reqW.query "markdown" "brief"
        ["legal_rag", "websearch"]).status = "completed" ∧
    (conduct_research envEmptyW job0W reqW.query "markdown" "brief"
        ["legal_rag", "websearch"]).content = some "" ∧
    (conduct_research envEmptyW job0W reqW.query "markdown" "brief"
        ["legal_rag", "websearch"]).error = none := by
  refine ⟨rfl, by decide, rfl⟩

/-- C6 corrected: once terminal, exactly one of `content`/`error` is *set*
(and each is written exactly once, neither being written before a terminal
transition): `content` set and `error` unset on `completed` — though the
set content equals the generation output and may be empty — and `error`
set (to a non-empty string) with `content` unset on `failed`. -/
theorem terminal_content_error_exclusive
    (env : OrchEnv) (rid : String) (req : ResearchQuery) (t0 : Nat)
    (q f l : String) (ags : List String) (e : String) (t : Nat) :
    (initialJob rid req t0).content = none ∧
    (initialJob rid req t0).error = none ∧
    ({ initialJob rid req t0 with status := "in_progress" } : ResearchJob).content = none ∧
    ({ initialJob rid req t0 with status := "in_progress" } : ResearchJob).error = none ∧
    (conduct_research env (initialJob rid req t0) q f l ags).status = "completed" ∧
    (conduct_research env (initialJob rid req t0) q f l ags).content.isSome = true ∧
    (conduct_research env (initialJob rid req t0) q f l ags).error = none ∧
    (finishJob { initialJob rid req t0 with status := "in_progress" }
        (Except.error e) t).status = "failed" ∧
    (finishJob { initialJob rid req t0 with status := "in_progress" }
        (Except.error e) t).content = none ∧
    (finishJob { initialJob rid req t0 with status := "in_progress" }
        (Except.error e) t).error = some ("Error in synthesis: " ++ e) ∧
    ("Error in synthesis: " ++ e) ≠ "" :=
  ⟨rfl, rfl, rfl, rfl, rfl, rfl, rfl, rfl, rfl, rfl,
   append_ne_empty_left _ _ (by decide)⟩
